import Mathlib

/-!
Shallow embedding of the command-line layer of lytest
(source file lytest/command_line.py): the dynamic test loader with its
process-wide module cache, and the handlers of the run, diff, git-diff
and git-config commands.  External collaborators are modelled as oracles:
executing a file as a module is a function from filenames to an optional
module (none models an exception raised during execution), and the diff
engine run_xor is a boolean oracle saying whether it raises
GeometryDifference on the given pair.  Handler behaviour is captured as a
trace of observable events (prints, callable invocations, run_xor and
ipc_load calls) together with an optional uncaught exception.
-/

namespace Lytest

/-- Index of the last occurrence of a character in a list of characters,
accumulator-style. -/
def lastIndexOfAux (c : Char) : List Char → Nat → Option Nat → Option Nat
  | [], _, acc => acc
  | x :: rest, i, acc => lastIndexOfAux c rest (i + 1) (if x = c then some i else acc)

/-- Index of the last occurrence of a character in a list, if any. -/
def lastIndexOf (c : Char) (cs : List Char) : Option Nat :=
  lastIndexOfAux c cs 0 none

/-- Model of os.path.splitext (posix): split off the extension at the last
dot of the last path component; leading dots of that component never start
an extension. -/
def os_splitext (p : String) : String × String :=
  let cs := p.data
  let sepNext : Nat :=
    match lastIndexOf '/' cs with
    | some i => i + 1
    | none => 0
  match lastIndexOf '.' cs with
  | none => (p, "")
  | some dotIdx =>
    if dotIdx < sepNext then (p, "")
    else if ((cs.drop sepNext).take (dotIdx - sepNext)).all (fun x => x == '.') then (p, "")
    else (String.mk (cs.take dotIdx), String.mk (cs.drop dotIdx))

/-- Model of os.path.basename (posix). -/
def os_basename (p : String) : String :=
  match lastIndexOf '/' p.data with
  | some i => String.mk (p.data.drop (i + 1))
  | none => p

/-- The module-cache key derived in load_attribute_fromfile: base name of
the path with the extension stripped. -/
def modulename (filename : String) : String :=
  (os_splitext (os_basename filename)).1

/-- Model of str.lower (ASCII, which covers the compared extensions). -/
def py_lower (s : String) : String :=
  String.mk (s.data.map Char.toLower)

/-- Model of str.startswith. -/
def py_startswith (s p : String) : Bool :=
  p.data.isPrefixOf s.data

/-- Model of str.endswith. -/
def py_endswith (s p : String) : Bool :=
  p.data.reverse.isPrefixOf s.data.reverse

/-- Lower-cased extension of a path, as compared against the allow-lists
of cm_diff and cm_gitdiff. -/
def lower_ext (f : String) : String :=
  py_lower (os_splitext f).2

/-- Behaviour of a module attribute when invoked as a callable: whether the
call raises. -/
structure Attr where
  raises : Bool
deriving DecidableEq

/-- An executed module: a namespace mapping attribute names to values. -/
structure Module where
  attrs : String → Option Attr

/-- Oracle for executing a file as a fresh module; none models an exception
raised while executing the file. -/
structure FS where
  exec : String → Option Module

/-- The uncaught exceptions the handlers can surface. -/
inductive Err where
  | importError (filename : String)
  | attributeError (a : String)
  | noPytestable
  | valueError (filename : String)
  | callableException
deriving DecidableEq

/-- Observable side effects of a handler run. -/
inductive Event where
  | print (line : String)
  | invoke (a : String)
  | run_xor (ref test : String) (tolerance : Int)
  | ipc_load (file : String) (mode : Nat)
deriving DecidableEq

/-- Process state of the loader: the _loaded_modules dictionary plus the
filenames whose execution has been attempted so far, in order. -/
structure LoadState where
  cache : List (String × Module)
  executed : List String

/-- The initial process state: empty cache, nothing executed. -/
def LoadState.init : LoadState := ⟨[], []⟩

/-- Lookup in the module cache. -/
def cacheLookup : List (String × Module) → String → Option Module
  | [], _ => none
  | (k, m) :: rest, key => if k = key then some m else cacheLookup rest key

/-- Model of getattr: an absent attribute raises AttributeError. -/
def pyGetattr (m : Module) (a : String) : Except Err Attr :=
  match m.attrs a with
  | some v => Except.ok v
  | none => Except.error (Err.attributeError a)

/-- Embedding of load_attribute_fromfile: on a cache miss the file is
executed (an execution failure is reported as ImportError naming the file
and caches nothing); on success the module is cached under the derived
module name and the attribute is looked up on it. -/
def load_attribute_fromfile (fs : FS) (st : LoadState) (filename a : String) :
    LoadState × Except Err Attr :=
  let modname := modulename filename
  match cacheLookup st.cache modname with
  | some m => (st, pyGetattr m a)
  | none =>
    match fs.exec filename with
    | none => (⟨st.cache, st.executed ++ [filename]⟩, Except.error (Err.importError filename))
    | some m => (⟨(modname, m) :: st.cache, st.executed ++ [filename]⟩, pyGetattr m a)

/-- Repeated calls of the loader on one file, keeping the evolving state. -/
def load_repeatedly (fs : FS) (filename a : String) : Nat → LoadState
  | 0 => LoadState.init
  | n + 1 => (load_attribute_fromfile fs (load_repeatedly fs filename a n) filename a).1

/-- Which exceptions the fallback loop of cm_xor_test catches: exactly the
AttributeError class. -/
def recoverable : Err → Bool
  | Err.attributeError _ => true
  | Err.noPytestable => true
  | _ => false

/-- The fallback loop of cm_xor_test: try each candidate name in order,
advancing only on AttributeError; exhaustion raises the fixed
no-pytest-able AttributeError. -/
def tryCandidates (fs : FS) (st : LoadState) (file : String) :
    List String → LoadState × Except Err String
  | [] => (st, Except.error Err.noPytestable)
  | c :: rest =>
    match load_attribute_fromfile fs st file c with
    | (st1, Except.ok _) => (st1, Except.ok c)
    | (st1, Except.error e) =>
      if recoverable e then tryCandidates fs st1 file rest
      else (st1, Except.error e)

/-- Embedding of cm_xor_test (the run-command handler), starting from the
initial process state: resolve the test name (directly when it is already
test-shaped, else through the fallback loop), load it, invoke it, and print
Success when the invocation does not raise. -/
def cm_xor_test (fs : FS) (testfile testname : String) :
    LoadState × List Event × Option Err :=
  let resolved :=
    if py_startswith testname "test_" || py_endswith testname "_test" then
      (LoadState.init, Except.ok testname)
    else
      tryCandidates fs LoadState.init testfile
        ["test_" ++ testname, testname ++ "_test"]
  match resolved with
  | (st1, Except.error e) => (st1, [], some e)
  | (st1, Except.ok fname) =>
    match load_attribute_fromfile fs st1 testfile fname with
    | (st2, Except.error e) => (st2, [], some e)
    | (st2, Except.ok v) =>
      if v.raises then (st2, [Event.invoke fname], some Err.callableException)
      else (st2, [Event.invoke fname, Event.print "Success"], none)

/-- Extension allow-list of cm_diff. -/
def diff_exts : List String := [".gds", ".oas", ".kicad_pcb"]

/-- Extension allow-list of cm_gitdiff. -/
def git_exts : List String := [".gds", ".oas"]

/-- Embedding of cm_diff: validate both extensions (per file, in order),
then call run_xor; a GeometryDifference is answered with the fixed message
and both files sent to the viewer, reference first. -/
def cm_diff (xorDiffers : Bool) (lyfile1 lyfile2 : String) (tolerance : Int) :
    List Event × Option Err :=
  if lower_ext lyfile1 ∉ diff_exts then ([], some (Err.valueError lyfile1))
  else if lower_ext lyfile2 ∉ diff_exts then ([], some (Err.valueError lyfile2))
  else if xorDiffers then
    ([Event.run_xor lyfile1 lyfile2 tolerance,
      Event.print "These layouts are different.",
      Event.ipc_load lyfile1 1, Event.ipc_load lyfile2 2], none)
  else ([Event.run_xor lyfile1 lyfile2 tolerance], none)

/-- The parsed positional arguments of git-diff; mode2 is optional so the
handler's is-None check is representable. -/
structure GitArgs where
  path : String
  lyfile1 : String
  hash1 : String
  mode1 : String
  lyfile2 : String
  hash2 : String
  mode2 : Option String
  similarity : List String
deriving DecidableEq

/-- A single-quote character as a string, for building Python reprs. -/
def squote : String := String.mk [Char.ofNat 39]

/-- The message printed for a pair missing on one side of the commit range;
the bracketed part is the repr of the two-element list of file names. -/
def missingBothMsg (f1 f2 : String) : String :=
  "File [" ++ squote ++ f1 ++ squote ++ ", " ++ squote ++ f2 ++ squote ++
    "] does not exist on both commits"

/-- Embedding of cm_gitdiff: refuse on similarity tokens (printing the
similarity lines after the first); then, per file in order, refuse when
mode2 is absent or that file is the null device, else validate that file's
extension; finally call run_xor with tolerance 1. -/
def cm_gitdiff (xorDiffers : Bool) (a : GitArgs) : List Event × Option Err :=
  if a.similarity.length > 0 then
    ([Event.print "Refusing to process similar files without the same name",
      Event.print (String.intercalate "\n" a.similarity.tail)], none)
  else if a.mode2 = none ∨ a.lyfile1 = "/dev/null" then
    ([Event.print (missingBothMsg a.lyfile1 a.lyfile2)], none)
  else if lower_ext a.lyfile1 ∉ git_exts then ([], some (Err.valueError a.lyfile1))
  else if a.mode2 = none ∨ a.lyfile2 = "/dev/null" then
    ([Event.print (missingBothMsg a.lyfile1 a.lyfile2)], none)
  else if lower_ext a.lyfile2 ∉ git_exts then ([], some (Err.valueError a.lyfile2))
  else if xorDiffers then
    ([Event.run_xor a.lyfile1 a.lyfile2 1,
      Event.print "Layouts differ:",
      Event.print ("  " ++ " " ++ a.lyfile2),
      Event.print ("  " ++ " " ++ a.lyfile1),
      Event.ipc_load a.lyfile1 1, Event.ipc_load a.lyfile2 2], none)
  else ([Event.run_xor a.lyfile1 a.lyfile2 1], none)

/-- The filetypes cm_gitconfig writes attribute lines for. -/
def gitattr_filetypes : List String := ["gds", "GDS", "oas", "OAS", "kicad_pcb"]

/-- One attributes-file line per recognized filetype. -/
def gitattr_lines : List String :=
  gitattr_filetypes.map (fun ft => "*." ++ ft ++ "  diff=lytest")

/-- Effect of cm_gitconfig on the attributes file, viewed as a list of
lines opened in append mode. -/
def cm_gitconfig_attr_append (content : List String) : List String :=
  content ++ gitattr_lines

/-- Argparse model for the optional integer tolerance of the diff command:
default 1 when omitted. -/
def parse_tolerance : Option Int → Int
  | none => 1
  | some t => t

/-- Fixture: a module defining exactly the attribute test_foo, whose
invocation returns normally. -/
def mFoo : Module := ⟨fun x => if x = "test_foo" then some ⟨false⟩ else none⟩

/-- Fixture: a filesystem on which only mytest.py executes, yielding mFoo. -/
def fsFoo : FS := ⟨fun f => if f = "mytest.py" then some mFoo else none⟩

/-- Fixture: a filesystem on which executing any file raises. -/
def fsNone : FS := ⟨fun _ => none⟩

/-- Fixture: a filesystem where a/mod.py executes to mFoo; b/mod.py shares
its basename. -/
def fsColl : FS := ⟨fun f => if f = "a/mod.py" then some mFoo else none⟩

/-- Fixture: a git-diff invocation carrying exactly one similarity token. -/
def oneSimArgs : GitArgs :=
  ⟨"path", "x.gds", "h1", "100644", "y.gds", "h2", some "100644", ["90"]⟩

/-- Fixture: a git-diff invocation with two similarity tokens. -/
def twoSimArgs : GitArgs :=
  ⟨"path", "x.gds", "h1", "100644", "y.gds", "h2", some "100644", ["90", "rename.gds"]⟩

/-- Fixture: second path is the null device while the first file has an
unrecognized extension. -/
def nullSecondBadArgs : GitArgs :=
  ⟨"path", "bad.txt", "h1", "100644", "/dev/null", "h2", some "100644", []⟩

/-- Fixture: second path is the null device and the first file has a
recognized extension. -/
def nullSecondOkArgs : GitArgs :=
  ⟨"path", "x.gds", "h1", "100644", "/dev/null", "h2", some "100644", []⟩

/-- C1 (amended): a git-diff invocation carrying similarity tokens is
refused before the diff engine: the handler prints the refusal notice and
the similarity lines after the first, returns normally, and never calls
run_xor, regardless of the files' extensions. -/
theorem gitdiff_similarity_refused (xd : Bool) (a : GitArgs)
    (h : a.similarity ≠ []) :
    cm_gitdiff xd a =
      ([Event.print "Refusing to process similar files without the same name",
        Event.print (String.intercalate "\n" a.similarity.tail)], none) ∧
    ∀ r t tol, Event.run_xor r t tol ∉ (cm_gitdiff xd a).1 := by
  have hlen : a.similarity.length > 0 := List.length_pos.mpr h
  constructor
  · simp [cm_gitdiff, hlen]
  · intro r t tol
    simp [cm_gitdiff, hlen]

/-- C1 witness: a concrete refusal with two similarity tokens. -/
theorem gitdiff_similarity_refused_w :
    cm_gitdiff false twoSimArgs =
      ([Event.print "Refusing to process similar files without the same name",
        Event.print "rename.gds"], none) :=
  ((gitdiff_similarity_refused false twoSimArgs (by decide)).1).trans (by decide)

/-- C1 counterexample: with exactly one similarity token the handler prints
the refusal notice followed by an empty listing; the token itself appears
nowhere in the output. -/
theorem gitdiff_one_token_not_listed :
    cm_gitdiff false oneSimArgs =
      ([Event.print "Refusing to process similar files without the same name",
        Event.print ""], none) ∧
    Event.print "90" ∉ (cm_gitdiff false oneSimArgs).1 := by decide

/-- C2 (amended): without similarity tokens the missing-on-one-side refusal
fires when mode2 is absent, when the first path is the null device, or when
the first file passes extension validation and the second path is the null
device; the handler then prints one message naming both file names, returns
normally, and never calls run_xor. -/
theorem gitdiff_missing_side_refused (xd : Bool) (a : GitArgs)
    (hsim : a.similarity = [])
    (h : a.mode2 = none ∨ a.lyfile1 = "/dev/null" ∨
         (lower_ext a.lyfile1 ∈ git_exts ∧ a.lyfile2 = "/dev/null")) :
    cm_gitdiff xd a = ([Event.print (missingBothMsg a.lyfile1 a.lyfile2)], none) ∧
    ∀ r t tol, Event.run_xor r t tol ∉ (cm_gitdiff xd a).1 := by
  have hlen : ¬ a.similarity.length > 0 := by simp [hsim]
  by_cases hfirst : a.mode2 = none ∨ a.lyfile1 = "/dev/null"
  · constructor
    · simp [cm_gitdiff, hlen, hfirst]
    · intro r t tol
      simp [cm_gitdiff, hlen, hfirst]
  · rcases h with hm | h1 | ⟨hext, h2⟩
    · exact absurd (Or.inl hm) hfirst
    · exact absurd (Or.inr h1) hfirst
    · constructor
      · simp [cm_gitdiff, hlen, hfirst, hext, h2]
      · intro r t tol
        simp [cm_gitdiff, hlen, hfirst, hext, h2]

/-- C2 witness: a concrete refusal where the second path is the null device
and the first file has a recognized extension. -/
theorem gitdiff_missing_side_refused_w :
    cm_gitdiff false nullSecondOkArgs =
      ([Event.print (missingBothMsg "x.gds" "/dev/null")], none) :=
  (gitdiff_missing_side_refused false nullSecondOkArgs rfl
    (Or.inr (Or.inr ⟨by decide, rfl⟩))).1

/-- C2 counterexample: with the second path equal to the null device but
the first file's extension unrecognized, the handler raises the
unrecognized-format error for the first file instead of refusing with the
missing-on-one-side message. -/
theorem gitdiff_null_second_not_refused :
    cm_gitdiff false nullSecondBadArgs = ([], some (Err.valueError "bad.txt")) ∧
    (cm_gitdiff false nullSecondBadArgs).2 ≠ none := by decide

/-- C3: run-command resolution for a name that is not test-shaped tries
test_name then name_test in that order, advancing exactly on the loader's
attribute-not-found signal: whichever candidate exists is the callable
invoked (test_name preferred), a no-raise invocation prints Success, and
when neither exists the handler fails with the fixed no-pytest-able
condition with an empty trace: nothing is invoked. -/
theorem run_fallback_resolution (fs : FS) (file name : String) (m : Module)
    (h1 : py_startswith name "test_" = false)
    (h2 : py_endswith name "_test" = false)
    (hx : fs.exec file = some m) :
    (∀ v, m.attrs ("test_" ++ name) = some v →
      (cm_xor_test fs file name).2 =
        (if v.raises then ([Event.invoke ("test_" ++ name)], some Err.callableException)
         else ([Event.invoke ("test_" ++ name), Event.print "Success"], none))) ∧
    (∀ v, m.attrs ("test_" ++ name) = none → m.attrs (name ++ "_test") = some v →
      (cm_xor_test fs file name).2 =
        (if v.raises then ([Event.invoke (name ++ "_test")], some Err.callableException)
         else ([Event.invoke (name ++ "_test"), Event.print "Success"], none))) ∧
    (m.attrs ("test_" ++ name) = none → m.attrs (name ++ "_test") = none →
      (cm_xor_test fs file name).2 = ([], some Err.noPytestable)) := by
  refine ⟨?_, ?_, ?_⟩
  · intro v hv
    cases hvr : v.raises <;>
      simp [cm_xor_test, tryCandidates, load_attribute_fromfile, cacheLookup, pyGetattr,
        recoverable, LoadState.init, h1, h2, hx, hv, hvr]
  · intro v hv1 hv2
    cases hvr : v.raises <;>
      simp [cm_xor_test, tryCandidates, load_attribute_fromfile, cacheLookup, pyGetattr,
        recoverable, LoadState.init, h1, h2, hx, hv1, hv2, hvr]
  · intro hv1 hv2
    simp [cm_xor_test, tryCandidates, load_attribute_fromfile, cacheLookup, pyGetattr,
      recoverable, LoadState.init, h1, h2, hx, hv1, hv2]

/-- C3 witness: a file defining only test_foo, run under the name foo,
invokes test_foo and prints Success. -/
theorem run_fallback_resolution_w :
    (cm_xor_test fsFoo "mytest.py" "foo").2 =
      ([Event.invoke "test_foo", Event.print "Success"], none) := by
  have h := (run_fallback_resolution fsFoo "mytest.py" "foo" mFoo (by decide) (by decide)
    rfl).1 ⟨false⟩ (by decide)
  exact h.trans (by decide)

/-- C4: for a file that executes successfully, any number of loader calls
executes it exactly once: after the first call the execution log stays at
one entry, the module is cached under the derived name, and every later
call leaves the state unchanged and resolves the attribute on the cached
module. -/
theorem loader_single_execution (fs : FS) (file a : String) (m : Module)
    (hx : fs.exec file = some m) : ∀ n : Nat,
    (load_repeatedly fs file a (n + 1)).executed = [file] ∧
    cacheLookup (load_repeatedly fs file a (n + 1)).cache (modulename file) = some m ∧
    load_attribute_fromfile fs (load_repeatedly fs file a (n + 1)) file a =
      (load_repeatedly fs file a (n + 1), pyGetattr m a) := by
  intro n
  induction n with
  | zero =>
    refine ⟨?_, ?_, ?_⟩ <;>
      simp [load_repeatedly, load_attribute_fromfile, cacheLookup, LoadState.init, hx]
  | succ k ih =>
    have hstep : load_repeatedly fs file a (k + 1 + 1) = load_repeatedly fs file a (k + 1) := by
      show (load_attribute_fromfile fs (load_repeatedly fs file a (k + 1)) file a).1 =
        load_repeatedly fs file a (k + 1)
      rw [ih.2.2]
    rw [hstep]
    exact ih

/-- C4 witness: three loads of mytest.py execute it once. -/
theorem loader_single_execution_w :
    (load_repeatedly fsFoo "mytest.py" "test_foo" 3).executed = ["mytest.py"] :=
  (loader_single_execution fsFoo "mytest.py" "test_foo" mFoo rfl 2).1

/-- C5: two distinct paths sharing a basename collide in the cache: after
loading the first path, loading the second path executes nothing new (the
execution log still holds only the first path) and resolves the requested
attribute on the module produced by executing the first path. -/
theorem basename_cache_collision (fs : FS) (p1 p2 a1 a2 : String) (m : Module)
    (hne : p1 ≠ p2) (hsame : modulename p1 = modulename p2)
    (hx : fs.exec p1 = some m) :
    load_attribute_fromfile fs (load_attribute_fromfile fs LoadState.init p1 a1).1 p2 a2 =
      ((load_attribute_fromfile fs LoadState.init p1 a1).1, pyGetattr m a2) ∧
    (load_attribute_fromfile fs LoadState.init p1 a1).1.executed = [p1] ∧
    p2 ∉ (load_attribute_fromfile fs LoadState.init p1 a1).1.executed := by
  have hst : (load_attribute_fromfile fs LoadState.init p1 a1).1 =
      ⟨[(modulename p1, m)], [p1]⟩ := by
    simp [load_attribute_fromfile, cacheLookup, LoadState.init, hx]
  refine ⟨?_, ?_, ?_⟩
  · rw [hst]
    simp [load_attribute_fromfile, cacheLookup, hsame]
  · rw [hst]
  · rw [hst]
    intro hmem
    have heq : p2 = p1 := by simpa using hmem
    exact hne heq.symm

/-- C5 witness: loading b/mod.py after a/mod.py never executes b/mod.py. -/
theorem basename_cache_collision_w :
    "b/mod.py" ∉ (load_attribute_fromfile fsColl LoadState.init "a/mod.py" "test_foo").1.executed := by
  have h := basename_cache_collision fsColl "a/mod.py" "b/mod.py" "test_foo" "test_foo" mFoo
    (by decide) (by decide) rfl
  exact h.2.2

/-- C8: a failure while executing a file is reported as an ImportError
naming that file, a condition distinct from attribute-not-found; in the
run fallback search it is fatal: the search stops after the single failed
attempt (no second candidate is tried) and the load error is the result. -/
theorem load_error_is_fatal (fs : FS) (file name a : String)
    (h1 : py_startswith name "test_" = false)
    (h2 : py_endswith name "_test" = false)
    (hx : fs.exec file = none) :
    load_attribute_fromfile fs LoadState.init file a =
      (⟨[], [file]⟩, Except.error (Err.importError file)) ∧
    (∀ f b, Err.importError f ≠ Err.attributeError b) ∧
    (cm_xor_test fs file name).2 = ([], some (Err.importError file)) ∧
    (cm_xor_test fs file name).1.executed = [file] := by
  refine ⟨?_, ?_, ?_, ?_⟩
  · simp [load_attribute_fromfile, cacheLookup, LoadState.init, hx]
  · intro f b hcon
    exact Err.noConfusion hcon
  · simp [cm_xor_test, tryCandidates, load_attribute_fromfile, cacheLookup, recoverable,
      LoadState.init, h1, h2, hx]
  · simp [cm_xor_test, tryCandidates, load_attribute_fromfile, cacheLookup, recoverable,
      LoadState.init, h1, h2, hx]

/-- C8 witness: with every execution failing, running foo surfaces the
ImportError for the file after exactly one attempt. -/
theorem load_error_is_fatal_w :
    (cm_xor_test fsNone "mytest.py" "foo").2 = ([], some (Err.importError "mytest.py")) :=
  (load_error_is_fatal fsNone "mytest.py" "foo" "x" (by decide) (by decide) rfl).2.2.1

/-- C6: cm_diff validates both files' extensions case-insensitively against
the .gds/.oas/.kicad_pcb allow-list before run_xor: a .GDS extension is
accepted, a .txt extension is rejected with a value error naming the
offending file and an empty trace (so run_xor is never called), and only
when both files pass does the trace start with the run_xor call. -/
theorem diff_extension_validation (xd : Bool) (f1 f2 : String) (t : Int) :
    lower_ext "a.GDS" ∈ diff_exts ∧
    lower_ext "a.txt" ∉ diff_exts ∧
    (lower_ext f1 ∉ diff_exts → cm_diff xd f1 f2 t = ([], some (Err.valueError f1))) ∧
    (lower_ext f1 ∈ diff_exts → lower_ext f2 ∉ diff_exts →
      cm_diff xd f1 f2 t = ([], some (Err.valueError f2))) ∧
    (lower_ext f1 ∈ diff_exts → lower_ext f2 ∈ diff_exts →
      (cm_diff xd f1 f2 t).1.head? = some (Event.run_xor f1 f2 t)) := by
  refine ⟨by decide, by decide, ?_, ?_, ?_⟩
  · intro h
    simp [cm_diff, h]
  · intro h1 h2
    simp [cm_diff, h1, h2]
  · intro h1 h2
    cases xd <;> simp [cm_diff, h1, h2]

/-- C6 witness: diffing a.txt against b.gds fails with the value error for
a.txt and an empty trace. -/
theorem diff_extension_validation_w :
    cm_diff false "a.txt" "b.gds" 1 = ([], some (Err.valueError "a.txt")) :=
  (diff_extension_validation false "a.txt" "b.gds" 1).2.2.1 (by decide)

/-- C7: with both extensions recognized, a geometry mismatch makes cm_diff
print the fixed message and send exactly the two files to the viewer, the
first with mode 1 then the second with mode 2, swallowing the signal; with
no mismatch the handler is silent: only the run_xor call happens and no
error surfaces either way. -/
theorem diff_mismatch_behaviour (xd : Bool) (f1 f2 : String) (t : Int)
    (h1 : lower_ext f1 ∈ diff_exts) (h2 : lower_ext f2 ∈ diff_exts) :
    cm_diff xd f1 f2 t =
      ((if xd then
          [Event.run_xor f1 f2 t, Event.print "These layouts are different.",
           Event.ipc_load f1 1, Event.ipc_load f2 2]
        else [Event.run_xor f1 f2 t]), none) := by
  cases xd <;> simp [cm_diff, h1, h2]

/-- C7 witness: a mismatch on a.gds and b.gds yields the message and the
two viewer calls in order. -/
theorem diff_mismatch_behaviour_w :
    cm_diff true "a.gds" "b.gds" 1 =
      ([Event.run_xor "a.gds" "b.gds" 1, Event.print "These layouts are different.",
        Event.ipc_load "a.gds" 1, Event.ipc_load "b.gds" 2], none) :=
  (diff_mismatch_behaviour true "a.gds" "b.gds" 1 (by decide) (by decide)).trans (by decide)

/-- C9: each git-config run appends exactly one line per filetype of
gds, GDS, oas, OAS, kicad_pcb, in order and without deduplication; the
prior content stays untouched as a prefix, and two runs append each of the
five lines twice. -/
theorem gitconfig_append_behaviour (content : List String) :
    cm_gitconfig_attr_append content =
      content ++ ["*.gds  diff=lytest", "*.GDS  diff=lytest", "*.oas  diff=lytest",
                  "*.OAS  diff=lytest", "*.kicad_pcb  diff=lytest"] ∧
    (cm_gitconfig_attr_append content).take content.length = content ∧
    (cm_gitconfig_attr_append (cm_gitconfig_attr_append content)).count "*.gds  diff=lytest" =
      content.count "*.gds  diff=lytest" + 2 ∧
    (cm_gitconfig_attr_append (cm_gitconfig_attr_append content)).count "*.GDS  diff=lytest" =
      content.count "*.GDS  diff=lytest" + 2 ∧
    (cm_gitconfig_attr_append (cm_gitconfig_attr_append content)).count "*.oas  diff=lytest" =
      content.count "*.oas  diff=lytest" + 2 ∧
    (cm_gitconfig_attr_append (cm_gitconfig_attr_append content)).count "*.OAS  diff=lytest" =
      content.count "*.OAS  diff=lytest" + 2 ∧
    (cm_gitconfig_attr_append (cm_gitconfig_attr_append content)).count "*.kicad_pcb  diff=lytest" =
      content.count "*.kicad_pcb  diff=lytest" + 2 := by
  have key : ∀ x : String, gitattr_lines.count x = 1 →
      (cm_gitconfig_attr_append (cm_gitconfig_attr_append content)).count x =
        content.count x + 2 := by
    intro x hx
    simp only [cm_gitconfig_attr_append, List.count_append, hx]
  refine ⟨rfl, ?_, key _ (by decide), key _ (by decide), key _ (by decide),
    key _ (by decide), key _ (by decide)⟩
  simp [cm_gitconfig_attr_append]

/-- C10: the diff tolerance is any integer, defaulting to 1 when omitted,
and whatever integer was parsed is forwarded unchanged as the tolerance of
the run_xor call. -/
theorem diff_tolerance_forwarding (xd : Bool) (f1 f2 : String) (topt : Option Int)
    (h1 : lower_ext f1 ∈ diff_exts) (h2 : lower_ext f2 ∈ diff_exts) :
    parse_tolerance none = 1 ∧
    (∀ t : Int, parse_tolerance (some t) = t) ∧
    (cm_diff xd f1 f2 (parse_tolerance topt)).1.head? =
      some (Event.run_xor f1 f2 (parse_tolerance topt)) := by
  refine ⟨rfl, fun t => rfl, ?_⟩
  cases xd <;> simp [cm_diff, h1, h2]

/-- C10 witness: a negative tolerance is forwarded unchanged. -/
theorem diff_tolerance_forwarding_w :
    (cm_diff false "a.gds" "b.gds" (parse_tolerance (some (-5)))).1.head? =
      some (Event.run_xor "a.gds" "b.gds" (-5)) := by
  have h := (diff_tolerance_forwarding false "a.gds" "b.gds" (some (-5))
    (by decide) (by decide)).2.2
  exact h.trans (by decide)

end Lytest
